import Mathlib

/-!
Verification of the VrikshAI core against its specification.

The embedding translates the JavaScript source files:
  - api/darshan.js                (identification endpoint and its validator)
  - api/_utils/auth_middleware.js (JWT issue and verify)
  - api/_utils/database.js        (Supabase wrapper: getUser, saveToVana,
                                   getMeraVana, updateVanaPlant, removeFromVana)
  - api/vana.js                   (plant-collection CRUD handlers)

Modelling conventions:
  - JSON values are the inductive `JsonValue`; the JavaScript `undefined`
    is a distinct constructor because property access on a missing key
    yields `undefined` while `JSON.parse` output never contains it.
  - Numbers are embedded as integers (every numeric value a claim
    exercises is integral); dates are embedded as (nonzero) day counts
    inside `JsonValue.num`, so that the JavaScript day arithmetic
    (`setDate(getDate() + n)` followed by taking the ISO date part)
    corresponds to addition of day counts.
  - The external data service (Supabase) is modelled as a list of rows;
    the single-row fetch of the client (`.single()`) reports an error
    when the filtered row set does not have exactly one element.
  - The JWT library is modelled with an explicit payload structure and a
    MAC that pairs the secret with the signed payload; serialization of
    tokens is abstracted by transporting structured tokens inside
    authorization-header part lists.
  - Throwing code is embedded as `Except String`; each thrown message is
    the literal message of the source.
-/

namespace VrikshAI

/-- A JSON-like JavaScript value. `undefined` is kept separate from `null`. -/
inductive JsonValue where
  | null
  | undefined
  | bool (b : Bool)
  | num (q : ℤ)
  | str (s : String)
  | arr (elems : List JsonValue)
  | obj (fields : List (String × JsonValue))

/-- Fields of a JavaScript object / columns of a database row. -/
abbrev JsObj := List (String × JsonValue)

/-- The JavaScript `typeof` operator on the embedded values.
Note that `typeof null`, arrays and objects all give the string "object". -/
def jsTypeof : JsonValue → String
  | .null => "object"
  | .undefined => "undefined"
  | .bool _ => "boolean"
  | .num _ => "number"
  | .str _ => "string"
  | .arr _ => "object"
  | .obj _ => "object"

/-- JavaScript truthiness: `false`, `0`, the empty string, `null` and
`undefined` are falsy; every array and object is truthy. -/
def jsTruthy : JsonValue → Bool
  | .null => false
  | .undefined => false
  | .bool b => b
  | .num q => !(q == 0)
  | .str s => !(s == "")
  | .arr _ => true
  | .obj _ => true

/-- The JavaScript `toLowerCase` on the character data of a string. -/
def lowerStr (s : String) : String :=
  ⟨s.data.map Char.toLower⟩

/-- Strict equality of an embedded value with a string (`v === s`). -/
def jsEqStr (v : JsonValue) (s : String) : Bool :=
  match v with
  | .str t => t == s
  | _ => false

/-- Property read on an object body, giving `undefined` for an absent key
(the behaviour of destructuring / member access on a parsed JSON body). -/
def bget (body : JsObj) (k : String) : JsonValue :=
  (body.lookup k).getD .undefined

/-- Total member access used to state claims: the property value of an
object, `undefined` otherwise. -/
def jsGetD (v : JsonValue) (k : String) : JsonValue :=
  match v with
  | .obj fs => bget fs k
  | _ => .undefined

/-- The JavaScript `in` operator: key presence test on an object; applying
it to `null`, `undefined` or a primitive throws a TypeError. -/
def jsIn (k : String) (v : JsonValue) : Except String Bool :=
  match v with
  | .obj fs => .ok (fs.any (fun p => p.1 == k))
  | _ => .error "TypeError: cannot use in operator"

/-- Member access `v[k]` as an expression: on objects it yields the value
or `undefined`; on `null` and `undefined` it throws a TypeError; on other
primitives and arrays the named properties read here are `undefined`. -/
def jsGet (v : JsonValue) (k : String) : Except String JsonValue :=
  match v with
  | .obj fs => .ok (bget fs k)
  | .null => .error "TypeError: cannot read properties of null"
  | .undefined => .error "TypeError: cannot read properties of undefined"
  | _ => .ok .undefined

/-- Boolean key-presence on an object, used to state claims. -/
def hasKeyB (v : JsonValue) (k : String) : Bool :=
  match v with
  | .obj fs => fs.any (fun p => p.1 == k)
  | _ => false

/-- The JavaScript `String.prototype.includes` test. -/
def strContains (s sub : String) : Bool :=
  (s.splitOn sub).length > 1

/-! ## api/darshan.js — response validation and handler -/

/-- The required top-level fields of `validateDarshanResult`. -/
def requiredFields : List String :=
  ["common_name", "scientific_name", "family", "plant_type",
   "confidence", "health_status", "health_notes"]

/-- The required nested object fields of `validateDarshanResult`. -/
def requiredObjects : List String :=
  ["description", "care_guide", "vastu", "traditional_significance", "warnings"]

/-- The loop over `requiredFields`: `if (!(field in data)) throw ...`. -/
def checkRequired (data : JsonValue) : List String → Except String Unit
  | [] => .ok ()
  | f :: rest =>
    match jsIn f data with
    | .error e => .error e
    | .ok true => checkRequired data rest
    | .ok false => .error ("Missing required field: " ++ f)

/-- `typeof data.confidence !== number || data.confidence < 0 || data.confidence > 1`. -/
def checkConfidence (data : JsonValue) : Except String Unit :=
  match jsGet data "confidence" with
  | .error e => .error e
  | .ok (.num q) =>
    if q < 0 ∨ 1 < q then .error "Confidence must be a number between 0 and 1"
    else .ok ()
  | .ok _ => .error "Confidence must be a number between 0 and 1"

/-- The loop over `requiredObjects`:
`if (!(field in data) || typeof data[field] !== object) throw ...`. -/
def checkObjects (data : JsonValue) : List String → Except String Unit
  | [] => .ok ()
  | f :: rest =>
    match jsIn f data with
    | .error e => .error e
    | .ok present =>
      if present then
        match jsGet data f with
        | .error e => .error e
        | .ok v =>
          if jsTypeof v == "object" then checkObjects data rest
          else .error ("Missing or invalid object: " ++ f)
      else .error ("Missing or invalid object: " ++ f)

/-- `!Array.isArray(v) || v.length === 0` reported with the given message. -/
def checkNonemptyArray (v : JsonValue) (msg : String) : Except String Unit :=
  match v with
  | .arr (_ :: _) => .ok ()
  | _ => .error msg

/-- `validateDarshanResult` from api/darshan.js: field presence, the
confidence range, object shape of the nested fields, and the three
non-empty-array checks, performed in source order; returns the data. -/
def validateDarshanResult (data : JsonValue) : Except String JsonValue :=
  match checkRequired data requiredFields with
  | .error e => .error e
  | .ok _ =>
    match checkConfidence data with
    | .error e => .error e
    | .ok _ =>
      match checkObjects data requiredObjects with
      | .error e => .error e
      | .ok _ =>
        match jsGet data "interesting_facts" with
        | .error e => .error e
        | .ok facts =>
          match checkNonemptyArray facts "interesting_facts must be a non-empty array" with
          | .error e => .error e
          | .ok _ =>
            match jsGet data "vastu" with
            | .error e => .error e
            | .ok vastu =>
              match jsGet vastu "benefits" with
              | .error e => .error e
              | .ok benefits =>
                match checkNonemptyArray benefits "vastu.benefits must be a non-empty array" with
                | .error e => .error e
                | .ok _ =>
                  match jsGet vastu "suitable_rooms" with
                  | .error e => .error e
                  | .ok rooms =>
                    match checkNonemptyArray rooms "vastu.suitable_rooms must be a non-empty array" with
                    | .error e => .error e
                    | .ok _ => .ok data

/-- An HTTP response: status code and JSON body. -/
structure HttpResponse where
  status : Nat
  body : JsonValue

/-- The outcome of the vision-model gateway call, with the free-text reply
abstracted to its parse outcome (`parseGPTResponse` of the reply text):
either a parsed value, a parse failure (a SyntaxError), a 429 rate-limit
error, or another gateway failure carrying a message. -/
inductive GatewayReply where
  | content (parsed : Except String JsonValue)
  | rateLimit
  | netFailure (msg : String)

/-- The 400 response for a request with neither image field. -/
def resp400missing : HttpResponse :=
  ⟨400, .obj [("success", .bool false),
              ("error", .str "Either image_url or image_base64 is required")]⟩

/-- The 429 rate-limit response. -/
def resp429 : HttpResponse :=
  ⟨429, .obj [("success", .bool false),
              ("error", .str "Rate limit exceeded. Please try again in a moment.")]⟩

/-- The 500 response for parse failures (SyntaxError or a message
containing the substring JSON). -/
def respParse : HttpResponse :=
  ⟨500, .obj [("success", .bool false),
              ("error", .str "Failed to parse AI response. Please try again.")]⟩

/-- The generic 500 failure response of the identification endpoint. -/
def respGeneric : HttpResponse :=
  ⟨500, .obj [("success", .bool false),
              ("error", .str "Plant identification failed. Please try again with a clearer image.")]⟩

/-- The success response of the identification endpoint. -/
def darshanSuccess (v : JsonValue) : HttpResponse :=
  ⟨200, .obj [("success", .bool true), ("darshan", v)]⟩

/-- The catch clause of the darshan handler for a thrown message that is
not a SyntaxError and has no 429 status. -/
def darshanCatch (msg : String) : HttpResponse :=
  if strContains msg "JSON" then respParse else respGeneric

/-- The POST path of the darshan `handler`: input validation of the image
fields, then the gateway call, parse, `validateDarshanResult`, and the
catch clause mapping thrown errors to responses. The boolean records
whether the gateway was invoked. -/
def darshanHandler (body : JsObj) (gw : GatewayReply) : HttpResponse × Bool :=
  let iu := bget body "image_url"
  let ib := bget body "image_base64"
  if !jsTruthy iu && !jsTruthy ib then (resp400missing, false)
  else
    match gw with
    | .rateLimit => (resp429, true)
    | .netFailure msg => (darshanCatch msg, true)
    | .content (.error _) => (respParse, true)
    | .content (.ok parsed) =>
      match validateDarshanResult parsed with
      | .ok v => (darshanSuccess v, true)
      | .error msg => (darshanCatch msg, true)

/-! ## api/_utils/auth_middleware.js — JWT issue and verify -/

/-- Token expiration in days (`TOKEN_EXPIRATION_DAYS`). -/
def TOKEN_EXPIRATION_DAYS : Nat := 7

/-- The claim set signed into a token: subject id, email, issued-at and
expires-at, in seconds. -/
structure JwtPayload where
  user_id : String
  email : String
  exp : Nat
  iat : Nat
  deriving DecidableEq

/-- The symmetric MAC of the JWT library, modelled as the pair of the
signing secret and the signed payload: a signature verifies exactly when
recomputing it with the current secret gives the same value. -/
def hmacSign (secret : String) (p : JwtPayload) : String × JwtPayload :=
  (secret, p)

/-- A signed token: payload plus signature (serialization abstracted). -/
structure JwtToken where
  payload : JwtPayload
  sig : String × JwtPayload
  deriving DecidableEq

/-- The failure categories of the JWT library: TokenExpiredError and
JsonWebTokenError. -/
inductive JwtError where
  | expired
  | invalid
  deriving DecidableEq

/-- `jwt.verify(token, secret, HS256)`: checks the signature against the
current secret, then fails as expired when the clock is at or past the
exp claim; on success returns the payload. -/
def jwtVerify (t : JwtToken) (secret : String) (now : Nat) : Except JwtError JwtPayload :=
  if t.sig = hmacSign secret t.payload then
    if t.payload.exp ≤ now then .error .expired else .ok t.payload
  else .error .invalid

/-- `generateToken(userId, email)` with the configured secret and clock:
errors when no secret is configured, otherwise signs the claim set
with iat = now and exp = now + 7 days. -/
def generateToken (secret : Option String) (now : Nat) (userId email : String) :
    Except String JwtToken :=
  match secret with
  | none => .error "JWT_SECRET environment variable is required"
  | some s =>
    let payload : JwtPayload :=
      ⟨userId, email, now + TOKEN_EXPIRATION_DAYS * 24 * 60 * 60, now⟩
    .ok ⟨payload, hmacSign s payload⟩

/-- One space-separated part of an Authorization header value: either a
plain word or a serialized token (serialization abstracted; a serialized
token is never the word bearer, as its wire form contains dots). -/
inductive HdrPart where
  | word (w : String)
  | tok (t : JwtToken)
  deriving DecidableEq

/-- The verified claims returned by `verifyToken`. -/
structure AuthData where
  user_id : String
  email : String
  deriving DecidableEq

/-- `verifyToken(req)` from auth_middleware.js: requires the header to be
present and of the exact shape `Bearer <token>` (two parts, scheme
case-insensitive), requires the secret, verifies via the JWT library and
maps its failures to the expired / invalid messages; a second part that
is not a serialized token fails inside the library as invalid. On success
the returned user id and email come from the verified payload. -/
def verifyToken (secret : Option String) (now : Nat)
    (header : Option (List HdrPart)) : Except String AuthData :=
  match header with
  | none => .error "Missing Authorization header"
  | some parts =>
    match parts with
    | [p0, p1] =>
      match p0 with
      | .word w =>
        if lowerStr w = "bearer" then
          match secret with
          | none => .error "JWT_SECRET environment variable is required"
          | some s =>
            match p1 with
            | .tok t =>
              match jwtVerify t s now with
              | .ok payload => .ok ⟨payload.user_id, payload.email⟩
              | .error .expired => .error "Token has expired. Please login again."
              | .error .invalid => .error "Invalid token. Please login again."
            | .word _ => .error "Invalid token. Please login again."
        else .error "Invalid Authorization header format. Use: Bearer <token>"
      | .tok _ => .error "Invalid Authorization header format. Use: Bearer <token>"
    | _ => .error "Invalid Authorization header format. Use: Bearer <token>"

/-! ## api/_utils/database.js — the Supabase wrapper -/

/-- A stored user profile row. -/
structure UserRow where
  id : String
  email : String
  name : String
  deriving DecidableEq

/-- The outcome of a single-row fetch of the data-service client
(`.select(...).eq(...).single()`): exactly one row, an error because no
single row matched, or a transport/connectivity failure. -/
inductive SbSingle (α : Type) where
  | row (a : α)
  | noRows
  | transport (msg : String)

/-- `getUser(userId)` from database.js: returns the fetched row; every
error of the data-service client — including transport failures — is
caught and turned into null. -/
def getUser (fetched : SbSingle UserRow) : Option UserRow :=
  match fetched with
  | .row u => some u
  | .noRows => none
  | .transport _ => none

/-- A stored plant row: the generated primary key plus its columns
(the owner column user_id lives among the fields, since updates can
write any column). -/
structure PlantRow where
  id : String
  fields : JsObj

/-- The database state: the plants table. -/
abbrev PlantsTable := List PlantRow

/-- Day arithmetic of the source
(`new Date(lw); d.setDate(d.getDate() + freq); d.toISOString().split(T)[0]`)
on dates embedded as day counts: addition of the day counts. -/
def jsDateAdd (lastWatered freq : JsonValue) : JsonValue :=
  match lastWatered, freq with
  | .num a, .num b => .num (a + b)
  | _, _ => .null

/-- The insert payload built by `saveToVana(userId, plantData)`: a fixed
column list with user_id always the caller, health_status defaulting to
healthy, and — when last_watered is supplied — last_watered together
with next_watering_due derived with the watering frequency defaulting
to 7 days. -/
def saveToVanaRow (userId : String) (plantData : JsObj) : JsObj :=
  let base : JsObj :=
    [("user_id", .str userId),
     ("name", bget plantData "name"),
     ("species", bget plantData "species"),
     ("scientific_name", bget plantData "scientific_name"),
     ("sanskrit_name", bget plantData "sanskrit_name"),
     ("family", bget plantData "family"),
     ("image_url", bget plantData "image_url"),
     ("care_schedule", bget plantData "care_schedule"),
     ("health_status",
       if jsTruthy (bget plantData "health_status") then bget plantData "health_status"
       else .str "healthy"),
     ("notes", bget plantData "notes")]
  if jsTruthy (bget plantData "last_watered") then
    let freq :=
      if jsTruthy (bget plantData "watering_frequency_days") then
        bget plantData "watering_frequency_days"
      else .num 7
    base ++
      [("last_watered", bget plantData "last_watered"),
       ("next_watering_due", jsDateAdd (bget plantData "last_watered") freq)]
  else base

/-- `getMeraVana(userId)`: all rows whose user_id column equals the
caller (the ordering by added_date, which no claim depends on, is not
modelled). -/
def getMeraVana (db : PlantsTable) (userId : String) : PlantsTable :=
  db.filter (fun r => jsEqStr (bget r.fields "user_id") userId)

/-- Setting one column of a row to a value (an UPDATE of that column). -/
def setField : JsObj → String → JsonValue → JsObj
  | [], k, v => [(k, v)]
  | (k1, v1) :: rest, k, v =>
    if k1 = k then (k, v) :: rest else (k1, v1) :: setField rest k v

/-- Applying an update object to a row: set every listed column. -/
def applyUpdates (fields : JsObj) (updates : JsObj) : JsObj :=
  updates.foldl (fun acc kv => setField acc kv.1 kv.2) fields

/-- Removing a key from an object (`delete obj.k`). -/
def removeField (fields : JsObj) (k : String) : JsObj :=
  fields.filter (fun p => !(p.1 == k))

/-- The message of the data-service client when a `.single()` fetch does
not match exactly one row. -/
def noRowsMsg : String := "JSON object requested, multiple (or no) rows returned"

/-- The mutation of the updates object inside `updateVanaPlant`: when the
update supplies truthy last_watered and truthy watering_frequency_days,
set next_watering_due to the derived date; otherwise leave it alone. -/
def deriveNextWatering (updates : JsObj) : JsObj :=
  let lw := bget updates "last_watered"
  let fr := bget updates "watering_frequency_days"
  if jsTruthy lw && jsTruthy fr then
    setField updates "next_watering_due" (jsDateAdd lw fr)
  else updates

/-- `updateVanaPlant(plantId, userId, updates)` from database.js: fetch
the single row with that id (throwing the client error when there is
none), throw when its user_id column is not the caller, then derive
next_watering_due when applicable and write every update column; every
thrown message is wrapped in the Failed-to-update prefix by the catch. -/
def updateVanaPlant (db : PlantsTable) (plantId : JsonValue) (userId : String)
    (updates : JsObj) : Except String PlantsTable :=
  match db.filter (fun r => jsEqStr plantId r.id) with
  | [plant] =>
    if jsEqStr (bget plant.fields "user_id") userId then
      let updates1 := deriveNextWatering updates
      .ok (db.map (fun r =>
        if jsEqStr plantId r.id then ⟨r.id, applyUpdates r.fields updates1⟩ else r))
    else .error "Failed to update plant: Plant not found or access denied"
  | _ => .error ("Failed to update plant: " ++ noRowsMsg)

/-- `removeFromVana(plantId, userId)` from database.js: the same fetch
and ownership check as update, then delete the row. -/
def removeFromVana (db : PlantsTable) (plantId : JsonValue) (userId : String) :
    Except String PlantsTable :=
  match db.filter (fun r => jsEqStr plantId r.id) with
  | [plant] =>
    if jsEqStr (bget plant.fields "user_id") userId then
      .ok (db.filter (fun r => !jsEqStr plantId r.id))
    else .error "Failed to remove plant: Plant not found or access denied"
  | _ => .error ("Failed to remove plant: " ++ noRowsMsg)

/-! ## api/vana.js — the plant-collection handlers -/

/-- The JSON error body `{success: false, error: msg}`. -/
def errBody (msg : String) : JsonValue :=
  .obj [("success", .bool false), ("error", .str msg)]

/-- `GET /api/vana/:id` (`handleGet` with a plant id in the URL):
authenticate, list the plants of the caller, find the id among them;
404 when it is not there. -/
def handleGetOne (secret : Option String) (now : Nat)
    (header : Option (List HdrPart)) (db : PlantsTable) (plantId : String) :
    HttpResponse :=
  match verifyToken secret now header with
  | .error msg => ⟨401, errBody msg⟩
  | .ok auth =>
    let plants := getMeraVana db auth.user_id
    match plants.find? (fun p => p.id == plantId) with
    | some plant =>
      ⟨200, .obj [("success", .bool true),
                  ("plant", .obj (("id", .str plant.id) :: plant.fields))]⟩
    | none => ⟨404, errBody "Plant not found"⟩

/-- `POST /api/vana` (`handlePost`): authenticate, require truthy name
and species, insert the row built by `saveToVana` (the generated row id
is the `newId` argument). Returns the response and resulting table. -/
def handlePost (secret : Option String) (now : Nat)
    (header : Option (List HdrPart)) (body : JsObj) (newId : String)
    (db : PlantsTable) : HttpResponse × PlantsTable :=
  match verifyToken secret now header with
  | .error msg => (⟨401, errBody msg⟩, db)
  | .ok auth =>
    if !jsTruthy (bget body "name") then
      (⟨400, errBody "Plant name is required"⟩, db)
    else if !jsTruthy (bget body "species") then
      (⟨400, errBody "Plant species is required"⟩, db)
    else
      (⟨200, .obj [("success", .bool true),
                   ("plant_id", .str newId),
                   ("message", .str "Plant added to Mera Vana successfully")]⟩,
       db ++ [⟨newId, saveToVanaRow auth.user_id body⟩])

/-- `PUT/PATCH /api/vana/:id` (`handlePut`): authenticate, take the plant
id from the URL or else from the body, require it truthy, strip plant_id
from the updates, require a non-empty update set, run `updateVanaPlant`;
a store failure is reported with status 500 and the thrown message. -/
def handlePut (secret : Option String) (now : Nat)
    (header : Option (List HdrPart)) (urlPlantId : Option String)
    (body : JsObj) (db : PlantsTable) : HttpResponse × PlantsTable :=
  match verifyToken secret now header with
  | .error msg => (⟨401, errBody msg⟩, db)
  | .ok auth =>
    let plantId : JsonValue :=
      match urlPlantId with
      | some s => .str s
      | none => bget body "plant_id"
    if !jsTruthy plantId then (⟨400, errBody "plant_id is required"⟩, db)
    else
      let updates := removeField body "plant_id"
      if updates.isEmpty then (⟨400, errBody "No fields to update"⟩, db)
      else
        match updateVanaPlant db plantId auth.user_id updates with
        | .ok db1 =>
          (⟨200, .obj [("success", .bool true),
                       ("message", .str "Plant updated successfully")]⟩, db1)
        | .error msg => (⟨500, errBody msg⟩, db)

/-- `DELETE /api/vana/:id` (`handleDelete`): authenticate, take the plant
id from the URL or else from the query, require it present, run
`removeFromVana`; a store failure is reported with status 500 and the
thrown message. -/
def handleDelete (secret : Option String) (now : Nat)
    (header : Option (List HdrPart)) (urlPlantId queryPlantId : Option String)
    (db : PlantsTable) : HttpResponse × PlantsTable :=
  match verifyToken secret now header with
  | .error msg => (⟨401, errBody msg⟩, db)
  | .ok auth =>
    let plantId : Option String :=
      match urlPlantId with
      | some s => some s
      | none => queryPlantId
    match plantId with
    | none =>
      (⟨400, errBody "plant_id is required in URL path or query parameter"⟩, db)
    | some s =>
      match removeFromVana db (.str s) auth.user_id with
      | .ok db1 =>
        (⟨200, .obj [("success", .bool true),
                     ("message", .str "Plant removed from Mera Vana successfully")]⟩, db1)
      | .error msg => (⟨500, errBody msg⟩, db)

/-! ## Helper lemmas about rows, updates and lookups -/

theorem lookup_setField_self (fs : JsObj) (k : String) (v : JsonValue) :
    (setField fs k v).lookup k = some v := by
  induction fs with
  | nil => simp [setField, List.lookup]
  | cons p rest ih =>
    obtain ⟨k1, v1⟩ := p
    by_cases h : k1 = k
    · simp [setField, h, List.lookup]
    · simp only [setField, if_neg h, List.lookup]
      have : (k == k1) = false := by
        simp [Ne.symm h]
      simp [this, ih]

theorem lookup_setField_ne (fs : JsObj) (k k1 : String) (v : JsonValue)
    (h : k1 ≠ k) : (setField fs k v).lookup k1 = fs.lookup k1 := by
  induction fs with
  | nil =>
    have hk : (k1 == k) = false := by simp [h]
    simp [setField, List.lookup, hk]
  | cons p rest ih =>
    obtain ⟨k2, v2⟩ := p
    by_cases h2 : k2 = k
    · subst h2
      have hk : (k1 == k2) = false := by simp [h]
      simp [setField, List.lookup, hk]
    · simp only [setField, if_neg h2, List.lookup]
      cases hb : (k1 == k2) <;> simp [ih]

theorem applyUpdates_nil (fs : JsObj) : applyUpdates fs [] = fs := rfl

theorem applyUpdates_cons (fs : JsObj) (k : String) (v : JsonValue) (us : JsObj) :
    applyUpdates fs ((k, v) :: us) = applyUpdates (setField fs k v) us := rfl

theorem lookup_applyUpdates_of_lookup_none (fs us : JsObj) (k : String)
    (h : us.lookup k = none) : (applyUpdates fs us).lookup k = fs.lookup k := by
  induction us generalizing fs with
  | nil => rfl
  | cons p rest ih =>
    obtain ⟨k0, v0⟩ := p
    rw [applyUpdates_cons]
    simp only [List.lookup] at h
    cases hb : (k == k0)
    · rw [hb] at h
      rw [ih _ h, lookup_setField_ne]
      intro hkk
      subst hkk
      simp at hb
    · rw [hb] at h
      simp at h

theorem keys_setField_of_mem (fs : JsObj) (k : String) (v : JsonValue)
    (h : k ∈ fs.map Prod.fst) :
    (setField fs k v).map Prod.fst = fs.map Prod.fst := by
  induction fs with
  | nil => simp at h
  | cons p rest ih =>
    obtain ⟨k1, v1⟩ := p
    by_cases h1 : k1 = k
    · simp [setField, h1]
    · simp only [List.map_cons, List.mem_cons] at h
      rcases h with h2 | h2
      · exact absurd h2.symm h1
      · simp [setField, if_neg h1, ih h2]

theorem keys_setField_of_not_mem (fs : JsObj) (k : String) (v : JsonValue)
    (h : k ∉ fs.map Prod.fst) :
    (setField fs k v).map Prod.fst = fs.map Prod.fst ++ [k] := by
  induction fs with
  | nil => simp [setField]
  | cons p rest ih =>
    obtain ⟨k1, v1⟩ := p
    simp only [List.map_cons, List.mem_cons, not_or] at h
    have h1 : k1 ≠ k := fun hh => h.1 hh.symm
    simp [setField, if_neg h1, ih h.2]

theorem keys_setField_nodup (fs : JsObj) (k : String) (v : JsonValue)
    (h : (fs.map Prod.fst).Nodup) : ((setField fs k v).map Prod.fst).Nodup := by
  by_cases hm : k ∈ fs.map Prod.fst
  · rw [keys_setField_of_mem fs k v hm]
    exact h
  · rw [keys_setField_of_not_mem fs k v hm]
    simp [List.nodup_append, h, hm]

theorem lookup_eq_none_of_not_mem_keys (us : JsObj) (k : String)
    (h : k ∉ us.map Prod.fst) : us.lookup k = none := by
  induction us with
  | nil => rfl
  | cons p rest ih =>
    obtain ⟨k0, v0⟩ := p
    simp only [List.map_cons, List.mem_cons, not_or] at h
    have hb : (k == k0) = false := by simp [h.1]
    simp only [List.lookup, hb]
    exact ih h.2

theorem lookup_applyUpdates_of_lookup_some (fs us : JsObj) (k : String)
    (v : JsonValue) (hnd : (us.map Prod.fst).Nodup)
    (h : us.lookup k = some v) : (applyUpdates fs us).lookup k = some v := by
  induction us generalizing fs with
  | nil => simp [List.lookup] at h
  | cons p rest ih =>
    obtain ⟨k0, v0⟩ := p
    rw [applyUpdates_cons]
    simp only [List.lookup] at h
    simp only [List.map_cons, List.nodup_cons] at hnd
    cases hb : (k == k0)
    · rw [hb] at h
      exact ih (setField fs k0 v0) hnd.2 h
    · rw [hb] at h
      have hk : k = k0 := by simpa using hb
      subst hk
      have hnone : rest.lookup k = none :=
        lookup_eq_none_of_not_mem_keys rest k hnd.1
      rw [lookup_applyUpdates_of_lookup_none _ _ _ hnone, lookup_setField_self]
      simpa using h

theorem lookup_removeField_ne (fs : JsObj) (k k1 : String) (h : k1 ≠ k) :
    (removeField fs k).lookup k1 = fs.lookup k1 := by
  induction fs with
  | nil => rfl
  | cons p rest ih =>
    obtain ⟨k2, v2⟩ := p
    by_cases h2 : k2 = k
    · subst h2
      have hk : (k1 == k2) = false := by simp [h]
      simp only [removeField, List.filter_cons, beq_self_eq_true, Bool.not_true,
        Bool.false_eq_true, if_false, List.lookup, hk]
      exact ih
    · have hk2 : (k2 == k) = false := by simp [h2]
      simp only [removeField, List.filter_cons, hk2, Bool.not_false, if_true, List.lookup]
      cases hb : (k1 == k2)
      · exact ih
      · rfl

theorem keys_removeField_nodup (fs : JsObj) (k : String)
    (h : (fs.map Prod.fst).Nodup) : ((removeField fs k).map Prod.fst).Nodup :=
  ((List.filter_sublist fs).map Prod.fst).nodup h

/-! ## Concrete fixtures -/

/-- The payload of a token of user userB issued at time 0. -/
def payloadB : JwtPayload := ⟨"userB", "b@example.com", 604800, 0⟩

/-- A token of user userB signed with the secret s. -/
def tokB : JwtToken := ⟨payloadB, ("s", payloadB)⟩

/-- An authorization header carrying the token of userB. -/
def hdrB : Option (List HdrPart) := some [.word "Bearer", .tok tokB]

/-- The payload of a token of user u1 issued at time 0. -/
def payloadU1 : JwtPayload := ⟨"u1", "u1@example.com", 604800, 0⟩

/-- A token of user u1 signed with the secret s. -/
def tokU1 : JwtToken := ⟨payloadU1, ("s", payloadU1)⟩

/-- An authorization header carrying the token of u1. -/
def hdrU1 : Option (List HdrPart) := some [.word "Bearer", .tok tokU1]

/-- A plants table holding one plant p1 owned by userA. -/
def db0 : PlantsTable := [⟨"p1", [("user_id", .str "userA"), ("name", .str "Fern")]⟩]

/-- The row inserted for u1 with last_watered day 100 and frequency 7:
its next_watering_due column is day 107. -/
def createdRow : JsObj :=
  saveToVanaRow "u1" [("name", .str "Fern"), ("species", .str "Nephrolepis"),
                      ("last_watered", .num 100), ("watering_frequency_days", .num 7)]

/-- An upstream reply whose nested fields description, care_guide,
traditional_significance and warnings are the JSON value null, while
every other check passes. -/
def nullishReply : JsonValue :=
  .obj [("common_name", .str "Tulsi"),
        ("scientific_name", .str "Ocimum tenuiflorum"),
        ("family", .str "Lamiaceae"),
        ("plant_type", .str "herb"),
        ("confidence", .num 1),
        ("health_status", .str "healthy"),
        ("health_notes", .str "vibrant leaves"),
        ("description", .null),
        ("care_guide", .null),
        ("vastu", .obj [("benefits", .arr [.str "peace"]),
                        ("suitable_rooms", .arr [.str "entrance"])]),
        ("traditional_significance", .null),
        ("warnings", .null),
        ("interesting_facts", .arr [.str "sacred basil"])]

/-! ## C3 — token round trip -/

/-- C3: for every non-empty userId and email, verifying a token produced
by issuing for (userId, email) with the same secret configured, at any
time before the expiry of the token, succeeds and returns exactly that
userId and email, taken from the verified claim set. -/
theorem token_round_trip (s userId email : String) (t0 now1 : Nat)
    (hu : userId ≠ "") (he : email ≠ "")
    (hexp : now1 < t0 + TOKEN_EXPIRATION_DAYS * 24 * 60 * 60) :
    ∃ t, generateToken (some s) t0 userId email = .ok t ∧
      verifyToken (some s) now1 (some [.word "Bearer", .tok t]) =
        .ok ⟨userId, email⟩ := by
  refine ⟨_, rfl, ?_⟩
  have hb : lowerStr "Bearer" = "bearer" := by decide
  have hexp2 : ¬ (t0 + TOKEN_EXPIRATION_DAYS * 24 * 60 * 60 ≤ now1) := by omega
  simp [verifyToken, jwtVerify, hmacSign, generateToken, hb, hexp2]

/-- Witness for C3 at a concrete user, secret and clock. -/
theorem token_round_trip_witness :
    ("u1" : String) ≠ "" ∧ ("u1@example.com" : String) ≠ "" ∧
    (604799 : Nat) < 0 + TOKEN_EXPIRATION_DAYS * 24 * 60 * 60 ∧
    ∃ t, generateToken (some "s") 0 "u1" "u1@example.com" = .ok t ∧
      verifyToken (some "s") 604799 (some [.word "Bearer", .tok t]) =
        .ok ⟨"u1", "u1@example.com"⟩ :=
  ⟨by decide, by decide, by decide,
   token_round_trip "s" "u1" "u1@example.com" 0 604799
     (by decide) (by decide) (by decide)⟩

/-! ## C7 — token expiry -/

/-- C7: the expires-at claim of an issued token is exactly issued-at plus
7 days; verification succeeds one second before expires-at and fails with
the expired category one second after it; and every successful
verification requires the signature to match the current secret and the
clock to be strictly before expires-at. -/
theorem token_expiry (s userId email : String) (t0 : Nat) :
    ∃ t, generateToken (some s) t0 userId email = .ok t ∧
      t.payload.exp = t.payload.iat + 7 * 24 * 60 * 60 ∧
      t.payload.iat = t0 ∧
      verifyToken (some s) (t0 + 7 * 24 * 60 * 60 - 1)
          (some [.word "Bearer", .tok t]) = .ok ⟨userId, email⟩ ∧
      verifyToken (some s) (t0 + 7 * 24 * 60 * 60 + 1)
          (some [.word "Bearer", .tok t]) =
        .error "Token has expired. Please login again." ∧
      ∀ (u : JwtToken) (n : Nat) (a : AuthData),
        verifyToken (some s) n (some [.word "Bearer", .tok u]) = .ok a →
        u.sig = hmacSign s u.payload ∧ n < u.payload.exp := by
  have hb : lowerStr "Bearer" = "bearer" := by decide
  refine ⟨_, rfl, rfl, rfl, ?_, ?_, ?_⟩
  · simp [verifyToken, jwtVerify, hmacSign, hb, TOKEN_EXPIRATION_DAYS]
  · simp [verifyToken, jwtVerify, hmacSign, hb, TOKEN_EXPIRATION_DAYS]
  · intro u n a h
    simp only [verifyToken, hb, if_pos] at h
    by_cases hsig : u.sig = hmacSign s u.payload
    · rw [jwtVerify, if_pos hsig] at h
      by_cases hex : u.payload.exp ≤ n
      · rw [if_pos hex] at h
        exact absurd h (by simp)
      · exact ⟨hsig, by omega⟩
    · rw [jwtVerify, if_neg hsig] at h
      exact absurd h (by simp)

/-- Witness for C7 at a concrete secret, subject and issue time. -/
theorem token_expiry_witness :
    ∃ t, generateToken (some "s") 0 "u1" "u1@example.com" = .ok t ∧
      t.payload.exp = t.payload.iat + 7 * 24 * 60 * 60 ∧
      t.payload.iat = 0 ∧
      verifyToken (some "s") (0 + 7 * 24 * 60 * 60 - 1)
          (some [.word "Bearer", .tok t]) = .ok ⟨"u1", "u1@example.com"⟩ ∧
      verifyToken (some "s") (0 + 7 * 24 * 60 * 60 + 1)
          (some [.word "Bearer", .tok t]) =
        .error "Token has expired. Please login again." ∧
      ∀ (u : JwtToken) (n : Nat) (a : AuthData),
        verifyToken (some "s") n (some [.word "Bearer", .tok u]) = .ok a →
        u.sig = hmacSign "s" u.payload ∧ n < u.payload.exp :=
  token_expiry "s" "u1" "u1@example.com" 0

/-! ## C5 — UserStore error discipline -/

/-- C5 counterexample: a transport failure of the data service is caught
by getUser and turned into the very same null result as a missing user,
instead of propagating to the caller as an error — the claim that callers
can distinguish a missing user from an unreachable store is false. -/
theorem getUser_transport_swallowed :
    getUser (.transport "TypeError: fetch failed") = none ∧
    getUser .noRows = none :=
  ⟨rfl, rfl⟩

/-- C5 amended: getUser returns the stored profile, and null both for a
missing user and for a transport failure of the data service; it never
throws, and a transport failure is indistinguishable from not-found. -/
theorem getUser_error_discipline (u : UserRow) (msg : String) :
    getUser (.row u) = some u ∧
    getUser .noRows = none ∧
    getUser (.transport msg) = getUser .noRows :=
  ⟨rfl, rfl, rfl⟩

/-! ## C9 — the validator accepts null nested fields -/

/-- C9: the object-shape check of the identification validator accepts
null for the required nested fields description, care_guide,
traditional_significance and warnings: a reply with those fields null
(and all other checks passing) is accepted by validateDarshanResult and
returned by the endpoint as a success response. -/
theorem validator_accepts_null_nested :
    jsGetD nullishReply "description" = .null ∧
    jsGetD nullishReply "care_guide" = .null ∧
    jsGetD nullishReply "traditional_significance" = .null ∧
    jsGetD nullishReply "warnings" = .null ∧
    validateDarshanResult nullishReply = .ok nullishReply ∧
    darshanHandler [("image_url", .str "https://example.com/plant.jpg")]
        (.content (.ok nullishReply)) = (darshanSuccess nullishReply, true) :=
  ⟨rfl, rfl, rfl, rfl, rfl, rfl⟩

/-! ## C8 — identification input contract -/

theorem darshanHandler_gateway_branch (body : JsObj) (gw : GatewayReply)
    (hc : (!jsTruthy (bget body "image_url") &&
           !jsTruthy (bget body "image_base64")) = false) :
    (darshanHandler body gw).2 = true ∧
    (darshanHandler body gw).1.status ≠ 400 := by
  simp only [darshanHandler, hc, Bool.false_eq_true, if_false]
  cases gw with
  | rateLimit => simp [resp429]
  | netFailure msg =>
    unfold darshanCatch
    by_cases hj : strContains msg "JSON" = true <;>
      simp [hj, respParse, respGeneric]
  | content p =>
    cases p with
    | error e => simp [respParse]
    | ok parsed =>
      cases hv : validateDarshanResult parsed with
      | ok v => simp [hv, darshanSuccess]
      | error msg =>
        unfold darshanCatch
        by_cases hj : strContains msg "JSON" = true <;>
          simp [hv, hj, respParse, respGeneric]

/-- C8: a request containing neither image_url nor image_base64 fails
with the 400 missing-image response and the vision-model gateway is not
invoked; conversely the 400 missing-image response occurs only when both
image fields are (JavaScript-)falsy, and whenever the gateway is skipped
the result is exactly that 400 response. -/
theorem darshan_missing_image (body : JsObj) (gw : GatewayReply) :
    (bget body "image_url" = .undefined ∧ bget body "image_base64" = .undefined →
      darshanHandler body gw = (resp400missing, false)) ∧
    ((darshanHandler body gw).1 = resp400missing →
      jsTruthy (bget body "image_url") = false ∧
      jsTruthy (bget body "image_base64") = false) ∧
    ((darshanHandler body gw).2 = false →
      darshanHandler body gw = (resp400missing, false)) := by
  refine ⟨?_, ?_, ?_⟩
  · intro h
    obtain ⟨h1, h2⟩ := h
    have hc : (!jsTruthy (bget body "image_url") &&
               !jsTruthy (bget body "image_base64")) = true := by
      rw [h1, h2]
      rfl
    simp [darshanHandler, hc]
  · intro h
    by_cases hc : (!jsTruthy (bget body "image_url") &&
                   !jsTruthy (bget body "image_base64")) = true
    · simp only [Bool.and_eq_true, Bool.not_eq_true'] at hc
      exact hc
    · rw [Bool.not_eq_true] at hc
      exact absurd (congrArg HttpResponse.status h)
        ((darshanHandler_gateway_branch body gw hc).2)
  · intro h
    by_cases hc : (!jsTruthy (bget body "image_url") &&
                   !jsTruthy (bget body "image_base64")) = true
    · simp [darshanHandler, hc]
    · rw [Bool.not_eq_true] at hc
      have := (darshanHandler_gateway_branch body gw hc).1
      rw [h] at this
      exact absurd this (by decide)

/-- Witness for C8: the empty body triggers the 400 missing-image
response without a gateway call. -/
theorem darshan_missing_image_witness :
    darshanHandler [] .rateLimit = (resp400missing, false) :=
  (darshan_missing_image [] .rateLimit).1 ⟨rfl, rfl⟩

/-! ## C4 — ownership forced on create -/

/-- C4: for every authenticated create request with the required fields
present, the inserted row is built by saveToVana for the verified caller,
and its user_id column is exactly the authenticated callers user id —
regardless of any owner field inside the client-supplied plant data. -/
theorem create_forces_ownership (secret : Option String) (now : Nat)
    (header : Option (List HdrPart)) (body : JsObj) (newId : String)
    (db : PlantsTable) (auth : AuthData)
    (hTok : verifyToken secret now header = .ok auth)
    (hname : jsTruthy (bget body "name") = true)
    (hspecies : jsTruthy (bget body "species") = true) :
    handlePost secret now header body newId db =
      (⟨200, .obj [("success", .bool true), ("plant_id", .str newId),
                   ("message", .str "Plant added to Mera Vana successfully")]⟩,
       db ++ [⟨newId, saveToVanaRow auth.user_id body⟩]) ∧
    (saveToVanaRow auth.user_id body).lookup "user_id" =
      some (.str auth.user_id) := by
  constructor
  · simp [handlePost, hTok, hname, hspecies]
  · unfold saveToVanaRow
    by_cases h : jsTruthy (bget body "last_watered") = true <;>
      simp [h, List.lookup]

/-- The create body of the C4 witness: it smuggles a user_id field. -/
def wBody : JsObj :=
  [("name", .str "Fern"), ("species", .str "Nephrolepis"),
   ("user_id", .str "intruder")]

/-- Witness for C4: a concrete authenticated create whose body carries a
foreign user_id still stores the caller u1 as owner. -/
theorem create_forces_ownership_witness :
    verifyToken (some "s") 0 hdrU1 = .ok ⟨"u1", "u1@example.com"⟩ ∧
    jsTruthy (bget wBody "name") = true ∧
    jsTruthy (bget wBody "species") = true ∧
    (handlePost (some "s") 0 hdrU1 wBody "p9" [] =
      (⟨200, .obj [("success", .bool true), ("plant_id", .str "p9"),
                   ("message", .str "Plant added to Mera Vana successfully")]⟩,
       [] ++ [⟨"p9", saveToVanaRow "u1" wBody⟩]) ∧
     (saveToVanaRow "u1" wBody).lookup "user_id" = some (.str "u1")) :=
  ⟨rfl, rfl, rfl,
   create_forces_ownership (some "s") 0 hdrU1 wBody "p9" []
     ⟨"u1", "u1@example.com"⟩ rfl rfl rfl⟩

/-! ## C1 — ownership isolation -/

/-- C1 counterexample: userB holds a valid token and targets plant p1
owned by userA; the update and delete requests do fail and leak nothing,
but with status 500 carrying the store error message — not with the
404 not-found outcome the claim requires. -/
theorem ownership_isolation_counterexample :
    verifyToken (some "s") 0 hdrB = .ok ⟨"userB", "b@example.com"⟩ ∧
    bget [("user_id", JsonValue.str "userA"), ("name", JsonValue.str "Fern")]
      "user_id" = .str "userA" ∧
    handlePut (some "s") 0 hdrB (some "p1") [("notes", .str "mine now")] db0 =
      (⟨500, errBody "Failed to update plant: Plant not found or access denied"⟩,
       db0) ∧
    (handlePut (some "s") 0 hdrB (some "p1") [("notes", .str "mine now")]
        db0).1.status ≠ 404 ∧
    handleDelete (some "s") 0 hdrB (some "p1") none db0 =
      (⟨500, errBody "Failed to remove plant: Plant not found or access denied"⟩,
       db0) ∧
    (handleDelete (some "s") 0 hdrB (some "p1") none db0).1.status ≠ 404 :=
  ⟨rfl, rfl, rfl, by decide, rfl, by decide⟩

/-- C1 amended: for users A ≠ B and a plant of A, the authenticated get
by B returns the fixed 404 not-found response — identical to the response
for an absent plant id — and never the plant data; the update and the
delete by B fail without touching the row and without returning the
plant data, but with a 500-status response carrying the store message
(Plant not found or access denied) instead of the 404 outcome. -/
theorem ownership_isolation_amended
    (db : PlantsTable) (secret : Option String) (now : Nat)
    (header : Option (List HdrPart)) (auth : AuthData) (pid ownerA : String)
    (row : PlantRow) (body : JsObj)
    (hTok : verifyToken secret now header = .ok auth)
    (hrow : db.filter (fun r => jsEqStr (.str pid) r.id) = [row])
    (hOwn : bget row.fields "user_id" = .str ownerA)
    (hAB : ownerA ≠ auth.user_id)
    (hpid : pid ≠ "")
    (hne : removeField body "plant_id" ≠ []) :
    handleGetOne secret now header db pid = ⟨404, errBody "Plant not found"⟩ ∧
    handleGetOne secret now header
        (db.filter (fun r => !jsEqStr (.str pid) r.id)) pid =
      ⟨404, errBody "Plant not found"⟩ ∧
    handlePut secret now header (some pid) body db =
      (⟨500, errBody "Failed to update plant: Plant not found or access denied"⟩,
       db) ∧
    handleDelete secret now header (some pid) none db =
      (⟨500, errBody "Failed to remove plant: Plant not found or access denied"⟩,
       db) := by
  have hown2 : jsEqStr (bget row.fields "user_id") auth.user_id = false := by
    rw [hOwn]
    simp [jsEqStr, hAB]
  have htruthy : jsTruthy (JsonValue.str pid) = true := by
    simp [jsTruthy, hpid]
  have hne2 : (removeField body "plant_id").isEmpty = false := by
    cases hcase : removeField body "plant_id" with
    | nil => exact absurd hcase hne
    | cons a l => rfl
  refine ⟨?_, ?_, ?_, ?_⟩
  · have hfind : (getMeraVana db auth.user_id).find?
        (fun p => p.id == pid) = none := by
      rw [List.find?_eq_none]
      intro x hx
      simp only [getMeraVana, List.mem_filter] at hx
      intro hbeq
      have hxid : x.id = pid := by simpa using hbeq
      have hxmem : x ∈ db.filter (fun r => jsEqStr (.str pid) r.id) := by
        rw [List.mem_filter]
        exact ⟨hx.1, by simp [jsEqStr, hxid]⟩
      rw [hrow] at hxmem
      have hx_eq : x = row := by simpa using hxmem
      subst hx_eq
      have := hx.2
      rw [hOwn] at this
      simp [jsEqStr, hAB] at this
    simp [handleGetOne, hTok, hfind]
  · have hfind : (getMeraVana
        (db.filter (fun r => !jsEqStr (.str pid) r.id)) auth.user_id).find?
        (fun p => p.id == pid) = none := by
      rw [List.find?_eq_none]
      intro x hx
      simp only [getMeraVana, List.mem_filter] at hx
      intro hbeq
      have hxid : x.id = pid := by simpa using hbeq
      have := hx.1.2
      simp [jsEqStr, hxid] at this
    simp [handleGetOne, hTok, hfind]
  · have hupd : updateVanaPlant db (.str pid) auth.user_id
        (removeField body "plant_id") =
        .error "Failed to update plant: Plant not found or access denied" := by
      unfold updateVanaPlant
      rw [hrow]
      simp [hown2]
    simp [handlePut, hTok, htruthy, hne2, hupd]
  · have hdel : removeFromVana db (.str pid) auth.user_id =
        .error "Failed to remove plant: Plant not found or access denied" := by
      unfold removeFromVana
      rw [hrow]
      simp [hown2]
    simp [handleDelete, hTok, hdel]

/-- Witness for the amended C1 at the concrete table db0. -/
theorem ownership_isolation_amended_witness :
    handleGetOne (some "s") 0 hdrB db0 "p1" =
      ⟨404, errBody "Plant not found"⟩ ∧
    handleGetOne (some "s") 0 hdrB
        (db0.filter (fun r => !jsEqStr (.str "p1") r.id)) "p1" =
      ⟨404, errBody "Plant not found"⟩ ∧
    handlePut (some "s") 0 hdrB (some "p1") [("notes", .str "mine now")] db0 =
      (⟨500, errBody "Failed to update plant: Plant not found or access denied"⟩,
       db0) ∧
    handleDelete (some "s") 0 hdrB (some "p1") none db0 =
      (⟨500, errBody "Failed to remove plant: Plant not found or access denied"⟩,
       db0) :=
  ownership_isolation_amended db0 (some "s") 0 hdrB ⟨"userB", "b@example.com"⟩
    "p1" "userA" ⟨"p1", [("user_id", .str "userA"), ("name", .str "Fern")]⟩
    [("notes", .str "mine now")] rfl rfl rfl (by decide) (by decide)
    (by simp [removeField])

/-! ## C6 — watering derivation -/

/-- C6 counterexample: a plant created with last_watered day 100 and
frequency 7 has next_watering_due day 107; the update that changes
last_watered to day 103 alone (the scenario of the claim, which asserts
the due date is recomputed whenever either input changes) leaves
next_watering_due at day 107 instead of day 110. -/
theorem watering_derivation_counterexample :
    createdRow.lookup "last_watered" = some (.num 100) ∧
    createdRow.lookup "next_watering_due" = some (.num 107) ∧
    updateVanaPlant [⟨"p1", createdRow⟩] (.str "p1") "u1"
        [("last_watered", .num 103)] =
      .ok [⟨"p1", applyUpdates createdRow [("last_watered", .num 103)]⟩] ∧
    (applyUpdates createdRow [("last_watered", .num 103)]).lookup
      "last_watered" = some (.num 103) ∧
    (applyUpdates createdRow [("last_watered", .num 103)]).lookup
      "next_watering_due" = some (.num 107) ∧
    some (JsonValue.num 107) ≠ some (JsonValue.num 110) := by
  refine ⟨rfl, rfl, rfl, rfl, rfl, ?_⟩
  intro h
  simp at h

/-- C6 amended: next_watering_due, when computed, equals last_watered
plus the watering frequency, but it is only derived on create when
last_watered is supplied (frequency defaulting to 7) and recomputed on
update only when the update supplies both last_watered and
watering_frequency_days; an update supplying only last_watered leaves
the stored due date untouched, while supplying both (lastWatered D+3,
frequency 7) yields D+10. -/
theorem watering_derivation_amended :
    (∀ (userId : String) (pd : JsObj) (lw f : ℤ),
      bget pd "last_watered" = .num lw → lw ≠ 0 →
      bget pd "watering_frequency_days" = .num f → f ≠ 0 →
      (saveToVanaRow userId pd).lookup "next_watering_due" =
        some (.num (lw + f))) ∧
    (∀ (userId : String) (pd : JsObj) (lw : ℤ),
      bget pd "last_watered" = .num lw → lw ≠ 0 →
      jsTruthy (bget pd "watering_frequency_days") = false →
      (saveToVanaRow userId pd).lookup "next_watering_due" =
        some (.num (lw + 7))) ∧
    (∀ (fields updates : JsObj) (lw f : ℤ),
      (updates.map Prod.fst).Nodup →
      bget updates "last_watered" = .num lw → lw ≠ 0 →
      bget updates "watering_frequency_days" = .num f → f ≠ 0 →
      (applyUpdates fields (deriveNextWatering updates)).lookup
        "next_watering_due" = some (.num (lw + f))) ∧
    (∀ (fields updates : JsObj),
      jsTruthy (bget updates "watering_frequency_days") = false →
      updates.lookup "next_watering_due" = none →
      (applyUpdates fields (deriveNextWatering updates)).lookup
        "next_watering_due" = fields.lookup "next_watering_due") ∧
    (updateVanaPlant [⟨"p1", createdRow⟩] (.str "p1") "u1"
        [("last_watered", .num 103), ("watering_frequency_days", .num 7)]).map
      (fun db => db.map (fun r => r.fields.lookup "next_watering_due")) =
      .ok [some (.num 110)] := by
  refine ⟨?_, ?_, ?_, ?_, rfl⟩
  · intro userId pd lw f hlw hlw0 hf hf0
    have hlt : jsTruthy (JsonValue.num lw) = true := by
      simp [jsTruthy, hlw0]
    have hft : jsTruthy (JsonValue.num f) = true := by
      simp [jsTruthy, hf0]
    unfold saveToVanaRow
    simp [hlw, hf, hlt, hft, jsDateAdd, List.lookup]
  · intro userId pd lw hlw hlw0 hfr
    have hlt : jsTruthy (JsonValue.num lw) = true := by
      simp [jsTruthy, hlw0]
    unfold saveToVanaRow
    simp [hlw, hfr, hlt, jsDateAdd, List.lookup]
  · intro fields updates lw f hnd hlw hlw0 hf hf0
    have hlt : jsTruthy (JsonValue.num lw) = true := by
      simp [jsTruthy, hlw0]
    have hft : jsTruthy (JsonValue.num f) = true := by
      simp [jsTruthy, hf0]
    have hd : deriveNextWatering updates =
        setField updates "next_watering_due" (.num (lw + f)) := by
      simp [deriveNextWatering, hlw, hf, hlt, hft, jsDateAdd]
    rw [hd]
    exact lookup_applyUpdates_of_lookup_some fields _ _ _
      (keys_setField_nodup updates _ _ hnd)
      (lookup_setField_self updates _ _)
  · intro fields updates hfr hnone
    have hd : deriveNextWatering updates = updates := by
      unfold deriveNextWatering
      simp [hfr]
    rw [hd]
    exact lookup_applyUpdates_of_lookup_none fields updates _ hnone

/-- Witness for the amended C6 at the concrete creation and updates. -/
theorem watering_derivation_amended_witness :
    (saveToVanaRow "u1" [("name", .str "Fern"), ("species", .str "Nephrolepis"),
        ("last_watered", .num 100), ("watering_frequency_days", .num 7)]).lookup
      "next_watering_due" = some (.num 107) ∧
    (saveToVanaRow "u1" [("name", .str "Fern"), ("species", .str "Nephrolepis"),
        ("last_watered", .num 200)]).lookup
      "next_watering_due" = some (.num 207) ∧
    (applyUpdates createdRow (deriveNextWatering
        [("last_watered", .num 103), ("watering_frequency_days", .num 7)])).lookup
      "next_watering_due" = some (.num 110) ∧
    (applyUpdates createdRow (deriveNextWatering
        [("last_watered", .num 103)])).lookup "next_watering_due" =
      createdRow.lookup "next_watering_due" := by
  obtain ⟨h1, h1b, h2, h3, _⟩ := watering_derivation_amended
  refine ⟨?_, ?_, ?_, ?_⟩
  · have := h1 "u1" [("name", .str "Fern"), ("species", .str "Nephrolepis"),
      ("last_watered", .num 100), ("watering_frequency_days", .num 7)]
      100 7 rfl (by decide) rfl (by decide)
    simpa using this
  · have := h1b "u1" [("name", .str "Fern"), ("species", .str "Nephrolepis"),
      ("last_watered", .num 200)] 200 rfl (by decide) rfl
    simpa using this
  · have := h2 createdRow
      [("last_watered", .num 103), ("watering_frequency_days", .num 7)]
      103 7 (by simp) rfl (by decide) rfl (by decide)
    simpa using this
  · exact h3 createdRow [("last_watered", .num 103)] rfl rfl

/-! ## C10 — the update path forwards fields without a whitelist -/

theorem lookup_applied_updates (rowFields updates : JsObj) (k : String)
    (v : JsonValue) (hnd : (updates.map Prod.fst).Nodup)
    (hk : k ≠ "next_watering_due") (h : updates.lookup k = some v) :
    (applyUpdates rowFields (deriveNextWatering updates)).lookup k = some v := by
  by_cases hboth : (jsTruthy (bget updates "last_watered") &&
      jsTruthy (bget updates "watering_frequency_days")) = true
  · have hd : deriveNextWatering updates =
        setField updates "next_watering_due"
          (jsDateAdd (bget updates "last_watered")
            (bget updates "watering_frequency_days")) := by
      simp [deriveNextWatering, hboth]
    rw [hd]
    exact lookup_applyUpdates_of_lookup_some _ _ _ _
      (keys_setField_nodup _ _ _ hnd)
      (by rw [lookup_setField_ne _ _ _ _ hk]; exact h)
  · have hd : deriveNextWatering updates = updates := by
      rw [Bool.not_eq_true] at hboth
      simp [deriveNextWatering, hboth]
    rw [hd]
    exact lookup_applyUpdates_of_lookup_some _ _ _ _ hnd h

/-- C10: an authenticated update by the owner of a plant writes every
field of the request body except plant_id to the stored row exactly as
supplied — with next_watering_due replaced by the derived date when the
body supplies both last_watered and watering_frequency_days — and in
particular a body containing user_id overwrites the stored owner column. -/
theorem update_forwards_fields
    (secret : Option String) (now : Nat) (header : Option (List HdrPart))
    (pid : String) (body : JsObj) (db : PlantsTable) (row : PlantRow)
    (auth : AuthData)
    (hTok : verifyToken secret now header = .ok auth)
    (hpid : pid ≠ "")
    (hrow : db.filter (fun r => jsEqStr (.str pid) r.id) = [row])
    (hOwn : bget row.fields "user_id" = .str auth.user_id)
    (hne : removeField body "plant_id" ≠ [])
    (hnd : (body.map Prod.fst).Nodup) :
    handlePut secret now header (some pid) body db =
      (⟨200, .obj [("success", .bool true),
                   ("message", .str "Plant updated successfully")]⟩,
       db.map (fun r => if jsEqStr (.str pid) r.id then
         ⟨r.id, applyUpdates r.fields
           (deriveNextWatering (removeField body "plant_id"))⟩ else r)) ∧
    (∀ (k : String) (v : JsonValue), k ≠ "plant_id" → k ≠ "next_watering_due" →
      body.lookup k = some v →
      (applyUpdates row.fields
        (deriveNextWatering (removeField body "plant_id"))).lookup k = some v) ∧
    (∀ v, body.lookup "user_id" = some v →
      (applyUpdates row.fields
        (deriveNextWatering (removeField body "plant_id"))).lookup "user_id" =
        some v) ∧
    ((jsTruthy (bget (removeField body "plant_id") "last_watered") = true ∧
      jsTruthy (bget (removeField body "plant_id") "watering_frequency_days")
        = true) →
      (applyUpdates row.fields
        (deriveNextWatering (removeField body "plant_id"))).lookup
          "next_watering_due" =
        some (jsDateAdd (bget (removeField body "plant_id") "last_watered")
          (bget (removeField body "plant_id") "watering_frequency_days"))) ∧
    (¬ (jsTruthy (bget (removeField body "plant_id") "last_watered") = true ∧
        jsTruthy (bget (removeField body "plant_id") "watering_frequency_days")
          = true) →
      ∀ v, body.lookup "next_watering_due" = some v →
        (applyUpdates row.fields
          (deriveNextWatering (removeField body "plant_id"))).lookup
            "next_watering_due" = some v) := by
  have hndu : ((removeField body "plant_id").map Prod.fst).Nodup :=
    keys_removeField_nodup body "plant_id" hnd
  have hfwd : ∀ (k : String) (v : JsonValue), k ≠ "plant_id" →
      (removeField body "plant_id").lookup k = body.lookup k := by
    intro k v hk
    exact lookup_removeField_ne body "plant_id" k hk
  refine ⟨?_, ?_, ?_, ?_, ?_⟩
  · have htruthy : jsTruthy (JsonValue.str pid) = true := by
      simp [jsTruthy, hpid]
    have hne2 : (removeField body "plant_id").isEmpty = false := by
      cases hcase : removeField body "plant_id" with
      | nil => exact absurd hcase hne
      | cons a l => rfl
    have hown2 : jsEqStr (bget row.fields "user_id") auth.user_id = true := by
      rw [hOwn]
      simp [jsEqStr]
    have hupd : updateVanaPlant db (.str pid) auth.user_id
        (removeField body "plant_id") =
        .ok (db.map (fun r => if jsEqStr (.str pid) r.id then
          ⟨r.id, applyUpdates r.fields
            (deriveNextWatering (removeField body "plant_id"))⟩ else r)) := by
      unfold updateVanaPlant
      rw [hrow]
      simp [hown2]
    simp [handlePut, hTok, htruthy, hne2, hupd]
  · intro k v hk1 hk2 h
    exact lookup_applied_updates row.fields _ k v hndu hk2
      (by rw [lookup_removeField_ne body "plant_id" k hk1]; exact h)
  · intro v h
    exact lookup_applied_updates row.fields _ "user_id" v hndu (by decide)
      (by rw [lookup_removeField_ne body "plant_id" "user_id" (by decide)]
          exact h)
  · intro hboth
    have hb : (jsTruthy (bget (removeField body "plant_id") "last_watered") &&
        jsTruthy (bget (removeField body "plant_id") "watering_frequency_days"))
        = true := by
      simp [hboth.1, hboth.2]
    have hd : deriveNextWatering (removeField body "plant_id") =
        setField (removeField body "plant_id") "next_watering_due"
          (jsDateAdd (bget (removeField body "plant_id") "last_watered")
            (bget (removeField body "plant_id") "watering_frequency_days")) := by
      simp [deriveNextWatering, hb]
    rw [hd]
    exact lookup_applyUpdates_of_lookup_some _ _ _ _
      (keys_setField_nodup _ _ _ hndu) (lookup_setField_self _ _ _)
  · intro hboth v h
    have hb : (jsTruthy (bget (removeField body "plant_id") "last_watered") &&
        jsTruthy (bget (removeField body "plant_id") "watering_frequency_days"))
        = false := by
      cases h1 : jsTruthy (bget (removeField body "plant_id") "last_watered") <;>
        cases h2 : jsTruthy
          (bget (removeField body "plant_id") "watering_frequency_days") <;>
        simp_all
    have hd : deriveNextWatering (removeField body "plant_id") =
        removeField body "plant_id" := by
      simp [deriveNextWatering, hb]
    rw [hd]
    exact lookup_applyUpdates_of_lookup_some _ _ _ _ hndu
      (by rw [lookup_removeField_ne body "plant_id" "next_watering_due"
                (by decide)]
          exact h)

/-- The stored row of the C10 witness, owned by u1. -/
def rowU1 : PlantRow := ⟨"p1", [("user_id", .str "u1"), ("notes", .str "old")]⟩

/-- The update body of the C10 witness: it carries plant_id, a takeover
user_id and a notes field. -/
def wPutBody : JsObj :=
  [("plant_id", .str "p1"), ("user_id", .str "takeover"),
   ("notes", .str "new")]

/-- Witness for C10: the concrete owner update forwards user_id and notes
verbatim into the stored row — the owner column becomes takeover. -/
theorem update_forwards_fields_witness :
    handlePut (some "s") 0 hdrU1 (some "p1") wPutBody [rowU1] =
      (⟨200, .obj [("success", .bool true),
                   ("message", .str "Plant updated successfully")]⟩,
       [rowU1].map (fun r => if jsEqStr (.str "p1") r.id then
         ⟨r.id, applyUpdates r.fields
           (deriveNextWatering (removeField wPutBody "plant_id"))⟩ else r)) ∧
    (applyUpdates rowU1.fields
      (deriveNextWatering (removeField wPutBody "plant_id"))).lookup "user_id" =
      some (.str "takeover") ∧
    (applyUpdates rowU1.fields
      (deriveNextWatering (removeField wPutBody "plant_id"))).lookup "notes" =
      some (.str "new") := by
  have h := update_forwards_fields (some "s") 0 hdrU1 "p1" wPutBody [rowU1]
    rowU1 ⟨"u1", "u1@example.com"⟩ rfl (by decide) rfl rfl
    (by simp [removeField, wPutBody]) (by simp [wPutBody])
  exact ⟨h.1, h.2.2.1 (.str "takeover") rfl,
         h.2.1 "notes" (.str "new") (by decide) (by decide) rfl⟩

/-! ## C2 — identification validation gate -/

theorem checkRequired_ok (data : JsonValue) (l : List String)
    (h : checkRequired data l = .ok ()) : ∀ f ∈ l, hasKeyB data f = true := by
  induction l with
  | nil =>
    intro f hf
    simp at hf
  | cons g rest ih =>
    intro f hf
    simp only [checkRequired] at h
    cases hj : jsIn g data with
    | error e =>
      rw [hj] at h
      exact absurd h (by simp)
    | ok b =>
      rw [hj] at h
      cases b with
      | false => exact absurd h (by simp)
      | true =>
        rcases List.mem_cons.mp hf with h1 | h1
        · subst h1
          cases data <;> simp [jsIn] at hj <;> simp [hasKeyB, hj]
        · exact ih h f h1

theorem checkConfidence_ok (data : JsonValue)
    (h : checkConfidence data = .ok ()) :
    ∃ q : ℤ, jsGet data "confidence" = .ok (.num q) ∧ ¬(q < 0 ∨ 1 < q) := by
  unfold checkConfidence at h
  cases hj : jsGet data "confidence" with
  | error e =>
    rw [hj] at h
    simp at h
  | ok v =>
    rw [hj] at h
    cases v with
    | num q =>
      by_cases hr : (q < 0 ∨ 1 < q)
      · simp [hr] at h
      · exact ⟨q, rfl, hr⟩
    | null => simp at h
    | undefined => simp at h
    | bool b => simp at h
    | str s => simp at h
    | arr el => simp at h
    | obj fl => simp at h

theorem validateDarshanResult_ok (data v : JsonValue)
    (h : validateDarshanResult data = .ok v) :
    v = data ∧ checkRequired data requiredFields = .ok () ∧
    checkConfidence data = .ok () ∧
    ∃ hd tl, jsGet data "interesting_facts" = .ok (.arr (hd :: tl)) := by
  unfold validateDarshanResult at h
  split at h
  · exact absurd h (by simp)
  split at h
  · exact absurd h (by simp)
  split at h
  · exact absurd h (by simp)
  split at h
  · exact absurd h (by simp)
  split at h
  · exact absurd h (by simp)
  split at h
  · exact absurd h (by simp)
  split at h
  · exact absurd h (by simp)
  split at h
  · exact absurd h (by simp)
  split at h
  · exact absurd h (by simp)
  split at h
  · exact absurd h (by simp)
  rename_i s1 u1 h1 s2 u2 h2 s3 u3 h3 s4 facts h4 s5 u5 h5 s6 vastu h6 s7
    benefits h7 s8 u8 h8 s9 rooms h9 s10 u10 h10
  have hfacts : ∃ hd tl, facts = JsonValue.arr (hd :: tl) := by
    unfold checkNonemptyArray at h5
    cases facts with
    | arr el =>
      cases el with
      | nil => simp at h5
      | cons a l => exact ⟨a, l, rfl⟩
    | null => simp at h5
    | undefined => simp at h5
    | bool b => simp at h5
    | num q => simp at h5
    | str s => simp at h5
    | obj fl => simp at h5
  obtain ⟨hd, tl, hft⟩ := hfacts
  refine ⟨(Except.ok.inj h).symm, ?_, ?_, hd, tl, ?_⟩
  · exact h1
  · exact h2
  · rw [h4, hft]

theorem jsGetD_of_jsGet_ok (x : JsonValue) (k : String) (w : JsonValue)
    (h : jsGet x k = .ok w) (hw : w ≠ .undefined) : jsGetD x k = w := by
  cases x with
  | obj fs =>
    simp only [jsGet] at h
    simp only [jsGetD]
    exact Except.ok.inj h
  | null => simp [jsGet] at h
  | undefined => simp [jsGet] at h
  | bool b =>
    simp only [jsGet] at h
    exact absurd (Except.ok.inj h).symm hw
  | num q =>
    simp only [jsGet] at h
    exact absurd (Except.ok.inj h).symm hw
  | str s =>
    simp only [jsGet] at h
    exact absurd (Except.ok.inj h).symm hw
  | arr el =>
    simp only [jsGet] at h
    exact absurd (Except.ok.inj h).symm hw

/-- C2: with an image supplied, when the parsed upstream reply misses a
required top-level field (confidence included), or its confidence is not
a number within [0,1], or its interesting_facts array is empty, the
identify handler answers with one of its two fixed failure responses —
carrying no part of the reply; and every success response carries exactly
a reply that passed the whole validation. -/
theorem darshan_validation_gate (body : JsObj) (parsed : JsonValue)
    (himg : jsTruthy (bget body "image_url") = true ∨
            jsTruthy (bget body "image_base64") = true) :
    ((∃ f ∈ requiredFields, hasKeyB parsed f = false) ∨
     (∀ q : ℤ, jsGetD parsed "confidence" = .num q → (q < 0 ∨ 1 < q)) ∨
     jsGetD parsed "interesting_facts" = .arr [] →
      darshanHandler body (.content (.ok parsed)) = (respGeneric, true) ∨
      darshanHandler body (.content (.ok parsed)) = (respParse, true)) ∧
    (∀ v, (darshanHandler body (.content (.ok parsed))).1 = darshanSuccess v →
      validateDarshanResult parsed = .ok v ∧ v = parsed) := by
  have hc : (!jsTruthy (bget body "image_url") &&
             !jsTruthy (bget body "image_base64")) = false := by
    rcases himg with h | h <;> simp [h]
  constructor
  · intro hbad
    cases hv : validateDarshanResult parsed with
    | error msg =>
      by_cases hj : strContains msg "JSON" = true
      · right
        simp [darshanHandler, hc, hv, darshanCatch, hj]
      · left
        rw [Bool.not_eq_true] at hj
        simp [darshanHandler, hc, hv, darshanCatch, hj]
    | ok v =>
      exfalso
      obtain ⟨hveq, hreq, hconf, hd, tl, hfacts⟩ :=
        validateDarshanResult_ok parsed v hv
      rcases hbad with ⟨f, hf, hkey⟩ | hconfbad | hfactsbad
      · rw [checkRequired_ok parsed requiredFields hreq f hf] at hkey
        exact absurd hkey (by simp)
      · obtain ⟨q, hq, hrange⟩ := checkConfidence_ok parsed hconf
        have hgd : jsGetD parsed "confidence" = .num q :=
          jsGetD_of_jsGet_ok parsed "confidence" (.num q) hq (by simp)
        exact hrange (hconfbad q hgd)
      · have hgd : jsGetD parsed "interesting_facts" = .arr (hd :: tl) :=
          jsGetD_of_jsGet_ok parsed "interesting_facts" (.arr (hd :: tl))
            hfacts (by simp)
        rw [hgd] at hfactsbad
        simp at hfactsbad
  · intro v hsucc
    cases hv : validateDarshanResult parsed with
    | error msg =>
      exfalso
      by_cases hj : strContains msg "JSON" = true
      · simp [darshanHandler, hc, hv, darshanCatch, hj, respParse,
          darshanSuccess] at hsucc
      · rw [Bool.not_eq_true] at hj
        simp [darshanHandler, hc, hv, darshanCatch, hj, respGeneric,
          darshanSuccess] at hsucc
    | ok w =>
      simp only [darshanHandler, hc, Bool.false_eq_true, if_false, hv] at hsucc
      have hwv : w = v := by
        simpa [darshanSuccess] using hsucc
      obtain ⟨hveq, _, _, _⟩ := validateDarshanResult_ok parsed w hv
      subst hwv
      exact ⟨rfl, hveq⟩

/-- Witness for C2: an object reply missing every required field is
answered by one of the two fixed failure responses. -/
theorem darshan_validation_gate_witness :
    darshanHandler [("image_url", .str "https://example.com/plant.jpg")]
        (.content (.ok (.obj []))) = (respGeneric, true) ∨
    darshanHandler [("image_url", .str "https://example.com/plant.jpg")]
        (.content (.ok (.obj []))) = (respParse, true) :=
  (darshan_validation_gate
      [("image_url", .str "https://example.com/plant.jpg")] (.obj [])
      (Or.inl rfl)).1
    (Or.inl ⟨"common_name", by decide, rfl⟩)

end VrikshAI
